import Mathlib

/-!
Shallow embedding of `scripts/validate_sprites.py`, a sprite-sheet
validator: a fixed list of six PNG filenames is resolved against a sprite
root directory derived from the script's own location; each existing file
is decoded and checked (exact size, frame divisibility, minimum ratio of
fully transparent pixels) and a report line is printed; the process exit
code aggregates the results.

Modelling choices:
* a decoded RGBA image is modelled by its width, height and the flattened
  alpha channel (the only pixel data the script inspects);
* filesystem paths are lists of components; the filesystem is a partial
  map from paths to decoded images (`none` = the path does not exist);
* Python float arithmetic on the transparency ratio is modelled exactly
  over `ℚ`: the threshold literal `0.01` becomes `1/100` (the reachable
  ratios are the rationals `k / 2^18`, and none of them separates the
  float `0.01` from the exact `1/100`, so the branch taken agrees);
* Python `format(x, ".N%")` (round-half-even to N decimal places of the
  percentage) is modelled by `formatPercent`.
-/

namespace LilypadLeap

/-- A decoded RGBA image: width, height, and the flattened alpha channel
as produced by `img.getchannel("A").get_flattened_data()`. -/
structure Img where
  w : Nat
  h : Nat
  alpha : List Nat

/-- The fixed ordered list of the six expected sprite filenames. -/
def FILES : List String :=
  ["toad_idle_right_v1.png",
   "toad_jump_right_v1.png",
   "toad_land_right_v1.png",
   "toad_cashout_right_v1.png",
   "toad_jackpot_right_v1.png",
   "toad_dead_right_v1.png"]

/-- Required sheet width (`SHEET_W = 1024`). -/
def SHEET_W : Nat := 1024

/-- Required sheet height (`SHEET_H = 256`). -/
def SHEET_H : Nat := 256

/-- Fixed frame count (`FRAMES = 4`). -/
def FRAMES : Nat := 4

/-- Derived frame width (`FRAME_W = SHEET_W // FRAMES`). -/
def FRAME_W : Nat := SHEET_W / FRAMES

/-- Derived frame height (`FRAME_H = SHEET_H`). -/
def FRAME_H : Nat := SHEET_H

/-- Number of fully transparent pixels:
`alpha0 = sum(1 for px in a.get_flattened_data() if px == 0)`. -/
def alpha0Count (img : Img) : Nat :=
  (img.alpha.filter (fun px => px == 0)).length

/-- Transparency ratio `pct = alpha0 / total` with `total = w * h`,
modelled exactly over the rationals. -/
def pct (img : Img) : ℚ :=
  (alpha0Count img : ℚ) / ((img.w * img.h : Nat) : ℚ)

/-- Python `str.startswith`: character-sequence prefix test. -/
def pyStartswith (s pre : String) : Bool :=
  pre.data.isPrefixOf s.data

/-- Round-half-even (banker's rounding) on an exact rational, as used by
Python's fixed-point formatting. -/
def roundHalfEven (q : ℚ) : ℤ :=
  if q - ⌊q⌋ < 1/2 then ⌊q⌋
  else if 1/2 < q - ⌊q⌋ then ⌊q⌋ + 1
  else if ⌊q⌋ % 2 = 0 then ⌊q⌋ else ⌊q⌋ + 1

/-- Left-pad the decimal rendering of `n` with zeros to `d` digits. -/
def padZeros (d : Nat) (n : Nat) : String :=
  String.mk (List.replicate (d - (toString n).length) '0') ++ toString n

/-- Model of the Python format spec `.d%` applied to a nonnegative exact
value `q`: multiply by 100, round half-even to `d` decimal places, render
with a trailing percent sign. -/
def formatPercent (d : Nat) (q : ℚ) : String :=
  let n : Nat := (roundHalfEven (q * 100 * (10 : ℚ) ^ d)).toNat
  toString (n / 10 ^ d) ++ "." ++ padZeros d (n % 10 ^ d) ++ "%"

/-- The per-file validation function `check`: size check, divisibility
check, transparency check, in that order, returning the first failure
message or the OK summary. -/
def check (img : Img) : String :=
  if (img.w, img.h) ≠ (SHEET_W, SHEET_H) then
    "FAIL wrong size " ++ toString img.w ++ "x" ++ toString img.h ++
      " (expected " ++ toString SHEET_W ++ "x" ++ toString SHEET_H ++ ")"
  else if img.w % FRAMES ≠ 0 then
    "FAIL width not divisible by " ++ toString FRAMES ++ ": " ++
      toString img.w ++ "x" ++ toString img.h
  else if pct img < 1/100 then
    "FAIL no real transparency (alpha0=" ++ formatPercent 4 (pct img) ++ ")"
  else
    "OK size=" ++ toString img.w ++ "x" ++ toString img.h ++
      " alpha0=" ++ formatPercent 2 (pct img) ++
      " frame=" ++ toString FRAME_W ++ "x" ++ toString FRAME_H

/-- A filesystem path, as its list of components. -/
abbrev Path := List String

/-- Python `os.path.dirname`: drop the last component. -/
def dirname (p : Path) : Path := p.dropLast

/-- Python `os.path.join` with a single extra component. -/
def osJoin (p : Path) (c : String) : Path := p ++ [c]

/-- Python `os.path.abspath` on an already-absolute base: resolve `..`
and `.` components left to right. -/
def normAbs (p : Path) : Path :=
  p.foldl
    (fun acc c =>
      if c = ".." then acc.dropLast else if c = "." then acc else acc ++ [c])
    []

/-- Repository root:
`REPO_ROOT = os.path.abspath(os.path.join(os.path.dirname(__file__), ".."))`,
as a function of the script file's own path. -/
def REPO_ROOT (scriptFile : Path) : Path :=
  normAbs (osJoin (dirname scriptFile) "..")

/-- Sprite root:
`ROOT = os.path.join(REPO_ROOT, "public", "lilypad-leap", "sprites", "toad", "sheets", "v1")`. -/
def ROOT (scriptFile : Path) : Path :=
  osJoin (osJoin (osJoin (osJoin (osJoin (osJoin
    (REPO_ROOT scriptFile) "public") "lilypad-leap") "sprites") "toad") "sheets") "v1"

/-- Render a path for printing. -/
def renderPath (p : Path) : String := String.intercalate "/" p

/-- The filesystem: which paths exist, and the decoded image at each
existing path. -/
abbrev FS := Path → Option Img

/-- The report line the main loop prints for one filename. -/
def fileLine (fs : FS) (root : Path) (f : String) : String :=
  match fs (osJoin root f) with
  | none => "MISSING " ++ f
  | some img => f ++ ": " ++ check img

/-- Whether one filename leaves the aggregate flag untouched: the file
exists and its check result does not start with `"FAIL"`. -/
def filePass (fs : FS) (root : Path) (f : String) : Bool :=
  match fs (osJoin root f) with
  | none => false
  | some img => !(pyStartswith (check img) "FAIL")

/-- One iteration of the main loop: accumulated printed lines and the
aggregate `ok` flag. A missing file prints `MISSING` and clears the flag;
otherwise the check result is printed and a `FAIL` result clears the
flag. -/
def step (fs : FS) (root : Path) (acc : List String × Bool) (f : String) :
    List String × Bool :=
  match fs (osJoin root f) with
  | none => (acc.1 ++ ["MISSING " ++ f], false)
  | some img =>
      (acc.1 ++ [f ++ ": " ++ check img],
       if pyStartswith (check img) "FAIL" then false else acc.2)

/-- The three header lines printed before the per-file lines. -/
def header (scriptFile : Path) : List String :=
  ["Repo root: " ++ renderPath (REPO_ROOT scriptFile),
   "Sprite root: " ++ renderPath (ROOT scriptFile),
   String.mk (List.replicate 70 '-')]

/-- Everything `main` produces: the printed lines and the exit code. -/
structure ProgOutput where
  lines : List String
  exitCode : Nat

/-- The `main` function: print the header, iterate over `FILES` with the
aggregate flag starting `true`, and exit 0 iff the flag survived. -/
def runMain (scriptFile : Path) (fs : FS) : ProgOutput :=
  let final := FILES.foldl (step fs (ROOT scriptFile)) ([], true)
  ⟨header scriptFile ++ final.1, if final.2 then 0 else 1⟩

/-! Helper lemmas: character-level prefix reasoning for the message
strings, which are all a literal head appended to a variable tail. -/

/-- Unfolding lemma for `pyStartswith` down to list-level `isPrefixOf`. -/
lemma pyStartswith_data (s pre : String) :
    pyStartswith s pre = pre.data.isPrefixOf s.data := rfl

/-- A prefix of the literal head is a prefix of the whole message. -/
lemma isPrefixOf_append_left {p l : List Char} (t : List Char)
    (h : p <+: l) : p.isPrefixOf (l ++ t) = true := by
  rw [ List.isPrefixOf_iff_prefix]
  exact h.trans (l.prefix_append t)

/-- A word incomparable with the literal head (neither is a prefix of
the other) is not a prefix of the whole message. -/
lemma isPrefixOf_append_ne {p l : List Char} (t : List Char)
    (h1 : ¬ p <+: l) (h2 : ¬ l <+: p) :
    p.isPrefixOf (l ++ t) = false := by
  rw [Bool.eq_false_iff, ne_eq, List.isPrefixOf_iff_prefix]
  intro hp
  rcases List.prefix_or_prefix_of_prefix hp (l.prefix_append t) with hc | hc
  · exact h1 hc
  · exact h2 hc

/-- Every result of `check` starts with `"FAIL"` or with `"OK"`, and
never with both. -/
lemma check_flags (img : Img) :
    (pyStartswith (check img) "FAIL" = true ∧
       pyStartswith (check img) "OK" = false) ∨
    (pyStartswith (check img) "FAIL" = false ∧
       pyStartswith (check img) "OK" = true) := by
  unfold check
  split
  · left
    constructor
    · simp only [pyStartswith_data, String.data_append, List.append_assoc]
      exact isPrefixOf_append_left _ (by decide :
        "FAIL".data <+: "FAIL wrong size ".data)
    · simp only [pyStartswith_data, String.data_append, List.append_assoc]
      exact isPrefixOf_append_ne _ (by decide) (by decide)
  split
  · left
    constructor
    · simp only [pyStartswith_data, String.data_append, List.append_assoc]
      exact isPrefixOf_append_left _ (by decide :
        "FAIL".data <+: "FAIL width not divisible by ".data)
    · simp only [pyStartswith_data, String.data_append, List.append_assoc]
      exact isPrefixOf_append_ne _ (by decide) (by decide)
  split
  · left
    constructor
    · simp only [pyStartswith_data, String.data_append, List.append_assoc]
      exact isPrefixOf_append_left _ (by decide :
        "FAIL".data <+: "FAIL no real transparency (alpha0=".data)
    · simp only [pyStartswith_data, String.data_append, List.append_assoc]
      exact isPrefixOf_append_ne _ (by decide) (by decide)
  · right
    constructor
    · simp only [pyStartswith_data, String.data_append, List.append_assoc]
      exact isPrefixOf_append_ne _ (by decide) (by decide)
    · simp only [pyStartswith_data, String.data_append, List.append_assoc]
      exact isPrefixOf_append_left _ (by decide : "OK".data <+: "OK size=".data)

/-- The printed lines of the main loop are one line per filename, in
list order. -/
lemma foldl_step_lines (fs : FS) (root : Path) :
    ∀ (l : List String) (acc : List String × Bool),
      (l.foldl (step fs root) acc).1 = acc.1 ++ l.map (fileLine fs root) := by
  intro l
  induction l with
  | nil => intro acc; simp
  | cons f rest ih =>
      intro acc
      rw [List.foldl_cons, ih, List.map_cons]
      unfold step fileLine
      cases fs (osJoin root f) <;> simp

/-- The aggregate flag after the main loop is the conjunction of the
incoming flag with every file's pass bit. -/
lemma foldl_step_flag (fs : FS) (root : Path) :
    ∀ (l : List String) (acc : List String × Bool),
      (l.foldl (step fs root) acc).2 = (acc.2 && l.all (filePass fs root)) := by
  intro l
  induction l with
  | nil => intro acc; simp
  | cons f rest ih =>
      intro acc
      rw [List.foldl_cons, ih, List.all_cons]
      unfold step filePass
      cases hfs : fs (osJoin root f) with
      | none => simp
      | some img =>
          cases hb : pyStartswith (check img) "FAIL" <;> cases acc.2 <;>
            simp [hb]

/-- On a path free of `..` and `.` components, `normAbs` keeps every
component. -/
lemma normAbs_clean (l : Path) (hclean : ∀ c ∈ l, c ≠ ".." ∧ c ≠ ".") :
    normAbs l = l := by
  unfold normAbs
  suffices h : ∀ acc : Path,
      (l.foldl
        (fun acc c =>
          if c = ".." then acc.dropLast else if c = "." then acc else acc ++ [c])
        acc) = acc ++ l by
    simpa using h []
  induction l with
  | nil => intro acc; simp
  | cons c rest ih =>
      intro acc
      have hc := hclean c (by simp)
      rw [List.foldl_cons, if_neg hc.1, if_neg hc.2,
        ih (fun d hd => hclean d (by simp [hd]))]
      simp

/-- An image with no fully transparent pixel has transparency ratio 0. -/
lemma pct_zero (img : Img) (h0 : alpha0Count img = 0) : pct img = 0 := by
  unfold pct
  rw [h0]
  simp

/-- Evaluation of the 4-decimal percent format at ratio 0. -/
lemma formatPercent_four_zero : formatPercent 4 0 = "0.0000%" := by
  have h : roundHalfEven ((0 : ℚ) * 100 * (10 : ℚ) ^ (4 : Nat)) = 0 := by
    rw [show ((0 : ℚ) * 100 * (10 : ℚ) ^ (4 : Nat)) = 0 by ring]
    unfold roundHalfEven
    norm_num
  unfold formatPercent
  rw [h]
  decide

/-- The exit code is decided by the conjunction of the per-file pass
bits. -/
lemma exit_code_eq (s : Path) (fs : FS) :
    (runMain s fs).exitCode =
      if FILES.all (filePass fs (ROOT s)) then 0 else 1 := by
  unfold runMain
  dsimp only
  rw [foldl_step_flag]
  simp

/-- A file's pass bit is set exactly when the file exists and its check
result is an OK result. -/
lemma filePass_true_iff (fs : FS) (root : Path) (f : String) :
    filePass fs root f = true ↔
      ∃ img, fs (osJoin root f) = some img ∧
        pyStartswith (check img) "OK" = true := by
  unfold filePass
  cases hfs : fs (osJoin root f) with
  | none => simp
  | some img =>
      dsimp only
      constructor
      · intro hb
        refine ⟨img, rfl, ?_⟩
        rcases check_flags img with ⟨hF, hO⟩ | ⟨hF, hO⟩
        · rw [hF] at hb
          exact absurd hb (by decide)
        · exact hO
      · rintro ⟨img2, heq, hOK⟩
        have himg : img2 = img := by
          injection heq with h2
          exact h2.symm
        rcases check_flags img with ⟨hF, hO⟩ | ⟨hF, hO⟩
        · rw [himg] at hOK
          rw [hOK] at hO
          exact absurd hO (by decide)
        · rw [hF]
          decide

/-- Congruence for `List.all` under pointwise equal predicates. -/
lemma all_congr_mem {α : Type} {l : List α} {p q : α → Bool}
    (h : ∀ a ∈ l, p a = q a) : l.all p = l.all q := by
  cases hq : l.all q with
  | true =>
      rw [List.all_eq_true] at hq ⊢
      intro a ha
      rw [h a ha]
      exact hq a ha
  | false =>
      rw [List.all_eq_false] at hq ⊢
      obtain ⟨a, ha, hqa⟩ := hq
      refine ⟨a, ha, ?_⟩
      rw [h a ha]
      exact hqa

/-- C2 counterexample: on the 1023×256 image the claim fails — `check`
returns the wrong-size message, not the divisibility-fail message. -/
theorem check_1023_no_divisibility_message :
    check ⟨1023, 256, []⟩ = "FAIL wrong size 1023x256 (expected 1024x256)" ∧
    check ⟨1023, 256, []⟩ ≠ "FAIL width not divisible by 4: 1023x256" := by
  constructor
  · decide
  · decide

/-- C2 (amended): for any image sized 1023×256 the size check fails and
returns first, so `check` produces the wrong-size message and never the
divisibility-fail message; the divisibility check is not reached. -/
theorem check_1023_size_fail_first (alpha : List Nat) :
    check ⟨1023, 256, alpha⟩ = "FAIL wrong size 1023x256 (expected 1024x256)" ∧
    check ⟨1023, 256, alpha⟩ ≠ "FAIL width not divisible by 4: 1023x256" := by
  have h : check ⟨1023, 256, alpha⟩ =
      "FAIL wrong size 1023x256 (expected 1024x256)" := by
    unfold check
    rw [if_pos (show ((1023 : Nat), (256 : Nat)) ≠ (SHEET_W, SHEET_H) by decide)]
    show ("FAIL wrong size " ++ toString (1023 : Nat) ++ "x" ++
        toString (256 : Nat) ++ " (expected " ++ toString SHEET_W ++ "x" ++
        toString SHEET_H ++ ")") = _
    decide
  refine ⟨h, ?_⟩
  rw [h]
  decide

/-- C3: a decoded image whose size differs from 1024×256 yields the
wrong-size failure naming actual and expected sizes, with no other
condition consulted — the size check is the first one evaluated. -/
theorem check_wrong_size_first (img : Img)
    (hne : (img.w, img.h) ≠ (SHEET_W, SHEET_H)) :
    check img = "FAIL wrong size " ++ toString img.w ++ "x" ++
      toString img.h ++ " (expected 1024x256)" := by
  unfold check
  rw [if_pos hne]
  have hsw : toString SHEET_W = "1024" := rfl
  have hsh : toString SHEET_H = "256" := rfl
  rw [hsw, hsh]
  apply String.ext
  simp only [String.data_append, List.append_assoc]
  congr 1

/-- Witness for C3 at the concrete size 500×500. -/
theorem check_wrong_size_first_witness :
    check ⟨500, 500, []⟩ = "FAIL wrong size " ++ toString (500 : Nat) ++ "x" ++
      toString (500 : Nat) ++ " (expected 1024x256)" :=
  check_wrong_size_first ⟨500, 500, []⟩ (by decide)

/-- C4: on a correctly sized 1024×256 image, the transparency ratio
`pct` decides the result with a strictly-less-than comparison against
1/100: below the threshold the transparency failure is returned, at or
above it (so also at exactly 1/100) the OK summary is returned. -/
theorem check_transparency_threshold (img : Img)
    (hw : img.w = SHEET_W) (hh : img.h = SHEET_H) :
    (pct img < 1/100 →
      check img =
        "FAIL no real transparency (alpha0=" ++ formatPercent 4 (pct img) ++ ")") ∧
    (1/100 ≤ pct img →
      check img =
        "OK size=" ++ toString img.w ++ "x" ++ toString img.h ++
          " alpha0=" ++ formatPercent 2 (pct img) ++
          " frame=" ++ toString FRAME_W ++ "x" ++ toString FRAME_H) := by
  have hne : ¬((img.w, img.h) ≠ (SHEET_W, SHEET_H)) := by
    rw [hw, hh]
    simp
  have hdiv : ¬(img.w % FRAMES ≠ 0) := by
    rw [hw]
    decide
  constructor
  · intro hlt
    unfold check
    rw [if_neg hne, if_neg hdiv, if_pos hlt]
  · intro hge
    unfold check
    rw [if_neg hne, if_neg hdiv, if_neg (not_lt.mpr hge)]

/-- Witness for C4 at a concrete correctly sized image. -/
theorem check_transparency_threshold_witness :
    (pct ⟨1024, 256, []⟩ < 1/100 →
      check ⟨1024, 256, []⟩ =
        "FAIL no real transparency (alpha0=" ++
          formatPercent 4 (pct ⟨1024, 256, []⟩) ++ ")") ∧
    (1/100 ≤ pct ⟨1024, 256, []⟩ →
      check ⟨1024, 256, []⟩ =
        "OK size=" ++ toString (1024 : Nat) ++ "x" ++ toString (256 : Nat) ++
          " alpha0=" ++ formatPercent 2 (pct ⟨1024, 256, []⟩) ++
          " frame=" ++ toString FRAME_W ++ "x" ++ toString FRAME_H) :=
  check_transparency_threshold ⟨1024, 256, []⟩ rfl rfl

/-- C5 counterexample: a fully opaque correctly sized image produces the
transparency failure with the percentage rendered to FOUR decimal
places, so the two-decimal string the claim names is not the result. -/
theorem opaque_image_format_counterexample :
    check ⟨1024, 256, [255]⟩ = "FAIL no real transparency (alpha0=0.0000%)" ∧
    check ⟨1024, 256, [255]⟩ ≠ "FAIL no real transparency (alpha0=0.00%)" := by
  have h0 : alpha0Count ⟨1024, 256, [255]⟩ = 0 := by decide
  have hp : pct ⟨1024, 256, [255]⟩ = 0 := pct_zero _ h0
  have h : check ⟨1024, 256, [255]⟩ =
      "FAIL no real transparency (alpha0=0.0000%)" := by
    unfold check
    rw [if_neg (by decide), if_neg (by decide),
      if_pos (by rw [hp]; norm_num), hp, formatPercent_four_zero]
    decide
  refine ⟨h, ?_⟩
  rw [h]
  decide

/-- C5 (amended): for a correctly sized image with no fully transparent
pixel, the result is the transparency failure with the percentage
rendered to four decimal places: `FAIL no real transparency
(alpha0=0.0000%)` (the Python format spec in the failure branch is
`.4%`, not `.2%`). -/
theorem check_opaque_image_message (img : Img)
    (hw : img.w = SHEET_W) (hh : img.h = SHEET_H)
    (h0 : alpha0Count img = 0) :
    check img = "FAIL no real transparency (alpha0=0.0000%)" := by
  have hp : pct img = 0 := pct_zero img h0
  unfold check
  rw [if_neg (by rw [hw, hh]; simp), if_neg (by rw [hw]; decide),
    if_pos (by rw [hp]; norm_num), hp, formatPercent_four_zero]
  decide

/-- Witness for the amended C5 at a concrete opaque image. -/
theorem check_opaque_image_message_witness :
    check ⟨1024, 256, [7]⟩ = "FAIL no real transparency (alpha0=0.0000%)" :=
  check_opaque_image_message ⟨1024, 256, [7]⟩ rfl rfl (by decide)

/-- C10: the frame-divisibility failure branch is unreachable — no input
image makes `check` return a message starting `"FAIL width"`, in
particular never the divisibility-fail message, because the branch runs
only once the size check passed (width 1024) and 1024 is divisible by
the fixed frame count 4. -/
theorem divisibility_branch_unreachable (img : Img) :
    pyStartswith (check img) "FAIL width" = false ∧
    check img ≠ "FAIL width not divisible by " ++ toString FRAMES ++ ": " ++
      toString img.w ++ "x" ++ toString img.h := by
  have h1 : pyStartswith (check img) "FAIL width" = false := by
    unfold check
    split
    · simp only [pyStartswith_data, String.data_append, List.append_assoc]
      exact isPrefixOf_append_ne _ (by decide) (by decide)
    · rename_i hsz
      split
      · rename_i hdiv
        exfalso
        apply hdiv
        have hww : img.w = SHEET_W := congrArg Prod.fst (not_not.mp hsz)
        rw [hww]
        decide
      · split
        · simp only [pyStartswith_data, String.data_append, List.append_assoc]
          exact isPrefixOf_append_ne _ (by decide) (by decide)
        · simp only [pyStartswith_data, String.data_append, List.append_assoc]
          exact isPrefixOf_append_ne _ (by decide) (by decide)
  refine ⟨h1, ?_⟩
  intro heq
  have h2 : pyStartswith (check img) "FAIL width" = true := by
    rw [heq]
    simp only [pyStartswith_data, String.data_append, List.append_assoc]
    exact isPrefixOf_append_left _ (by decide :
      "FAIL width".data <+: "FAIL width not divisible by ".data)
  rw [h1] at h2
  exact absurd h2 (by decide)

/-- C1: the exit code is 0 iff every one of the six expected files
exists and its check returns an OK result; the only other possible exit
code is 1, taken whenever some file is missing or some check fails. -/
theorem exit_code_zero_iff_all_pass (s : Path) (fs : FS) :
    ((runMain s fs).exitCode = 0 ↔
      ∀ f ∈ FILES, ∃ img, fs (osJoin (ROOT s) f) = some img ∧
        pyStartswith (check img) "OK" = true) ∧
    ((runMain s fs).exitCode = 0 ∨ (runMain s fs).exitCode = 1) := by
  constructor
  · rw [exit_code_eq]
    constructor
    · intro h f hf
      cases hall : FILES.all (filePass fs (ROOT s)) with
      | false =>
          rw [hall] at h
          simp at h
      | true =>
          exact (filePass_true_iff fs (ROOT s) f).mp
            ((List.all_eq_true.mp hall) f hf)
    · intro hforall
      have hall : FILES.all (filePass fs (ROOT s)) = true :=
        List.all_eq_true.mpr
          (fun f hf => (filePass_true_iff fs (ROOT s) f).mpr (hforall f hf))
      rw [hall]
      simp
  · rw [exit_code_eq]
    cases FILES.all (filePass fs (ROOT s)) <;> simp

/-- C6: the sprite root is the script's own path minus its last two
components (file name and containing directory), joined with the fixed
nested directory path, and the first two report lines print the resolved
repository root and sprite root. -/
theorem sprite_root_resolution (s : Path) (fs : FS)
    (hclean : ∀ c ∈ s, c ≠ ".." ∧ c ≠ ".") :
    REPO_ROOT s = s.dropLast.dropLast ∧
    ROOT s = s.dropLast.dropLast ++
      ["public", "lilypad-leap", "sprites", "toad", "sheets", "v1"] ∧
    (runMain s fs).lines.take 2 =
      ["Repo root: " ++ renderPath (REPO_ROOT s),
       "Sprite root: " ++ renderPath (ROOT s)] := by
  have hrr : REPO_ROOT s = s.dropLast.dropLast := by
    unfold REPO_ROOT osJoin dirname
    have h1 : normAbs (s.dropLast ++ [".."]) = (normAbs s.dropLast).dropLast := by
      unfold normAbs
      rw [List.foldl_append]
      simp
    have h2 : normAbs s.dropLast = s.dropLast :=
      normAbs_clean _ (fun c hc => hclean c ((s.dropLast_sublist).subset hc))
    rw [h1, h2]
  refine ⟨hrr, ?_, ?_⟩
  · unfold ROOT osJoin
    rw [hrr]
    simp
  · unfold runMain header
    dsimp only
    simp

/-- C7: a filename on the fixed list whose resolved path does not exist
contributes a `MISSING` line, forces exit code 1, and does not stop the
loop: the report still contains exactly one line per filename of the
list, in list order (a missing file's line is produced without invoking
`check`). -/
theorem missing_file_handling (s : Path) (fs : FS) (f : String)
    (hf : f ∈ FILES) (hmiss : fs (osJoin (ROOT s) f) = none) :
    ("MISSING " ++ f) ∈ (runMain s fs).lines ∧
    (runMain s fs).exitCode = 1 ∧
    (runMain s fs).lines = header s ++ FILES.map (fileLine fs (ROOT s)) := by
  have hlines : (runMain s fs).lines =
      header s ++ FILES.map (fileLine fs (ROOT s)) := by
    unfold runMain
    dsimp only
    rw [foldl_step_lines]
    simp
  have hline : fileLine fs (ROOT s) f = "MISSING " ++ f := by
    unfold fileLine
    rw [hmiss]
  refine ⟨?_, ?_, hlines⟩
  · rw [hlines]
    exact List.mem_append.mpr (Or.inr (hline ▸ List.mem_map_of_mem _ hf))
  · rw [exit_code_eq]
    have hfalse : FILES.all (filePass fs (ROOT s)) = false := by
      refine List.all_eq_false.mpr ⟨f, hf, ?_⟩
      unfold filePass
      rw [hmiss]
      simp
    rw [hfalse]
    simp

/-- C8: the aggregate flag is monotonic — it starts `true` and is only
ever cleared, so once the flag is `false` after any prefix of the file
list, the final exit code is 1 no matter what the remaining files
yield. -/
theorem aggregate_flag_monotonic (s : Path) (fs : FS) (l₁ l₂ : List String)
    (hsplit : FILES = l₁ ++ l₂)
    (hfail : (l₁.foldl (step fs (ROOT s)) ([], true)).2 = false) :
    (runMain s fs).exitCode = 1 := by
  unfold runMain
  dsimp only
  rw [hsplit, List.foldl_append, foldl_step_flag, hfail]
  simp

/-- C9: the program is a deterministic function of the file set — two
filesystems agreeing on the six resolved paths produce identical report
lines and the same exit code (in particular two runs over an unchanged
file set coincide). -/
theorem deterministic_output (s : Path) (fs₁ fs₂ : FS)
    (h : ∀ f ∈ FILES, fs₁ (osJoin (ROOT s) f) = fs₂ (osJoin (ROOT s) f)) :
    runMain s fs₁ = runMain s fs₂ := by
  have hmap : FILES.map (fileLine fs₁ (ROOT s)) =
      FILES.map (fileLine fs₂ (ROOT s)) :=
    List.map_congr_left (fun f hf => by unfold fileLine; rw [h f hf])
  have hall : FILES.all (filePass fs₁ (ROOT s)) =
      FILES.all (filePass fs₂ (ROOT s)) :=
    all_congr_mem (fun f hf => by unfold filePass; rw [h f hf])
  have e1 : (FILES.foldl (step fs₁ (ROOT s)) ([], true)).1 =
      (FILES.foldl (step fs₂ (ROOT s)) ([], true)).1 := by
    rw [foldl_step_lines, foldl_step_lines, hmap]
  have e2 : (FILES.foldl (step fs₁ (ROOT s)) ([], true)).2 =
      (FILES.foldl (step fs₂ (ROOT s)) ([], true)).2 := by
    rw [foldl_step_flag, foldl_step_flag, hall]
  unfold runMain
  dsimp only
  rw [e1, e2]

/-- Witness for C6 at a concrete script location. -/
theorem sprite_root_resolution_witness :
    REPO_ROOT ["", "home", "game", "scripts", "validate_sprites.py"] =
      (["", "home", "game", "scripts", "validate_sprites.py"] :
        Path).dropLast.dropLast ∧
    ROOT ["", "home", "game", "scripts", "validate_sprites.py"] =
      (["", "home", "game", "scripts", "validate_sprites.py"] :
          Path).dropLast.dropLast ++
        ["public", "lilypad-leap", "sprites", "toad", "sheets", "v1"] ∧
    (runMain ["", "home", "game", "scripts", "validate_sprites.py"]
        (fun _ => none)).lines.take 2 =
      ["Repo root: " ++ renderPath
        (REPO_ROOT ["", "home", "game", "scripts", "validate_sprites.py"]),
       "Sprite root: " ++ renderPath
        (ROOT ["", "home", "game", "scripts", "validate_sprites.py"])] :=
  sprite_root_resolution ["", "home", "game", "scripts", "validate_sprites.py"]
    (fun _ => none) (by decide)

/-- Witness for C7 with the first filename missing from an empty
filesystem. -/
theorem missing_file_handling_witness :
    ("MISSING " ++ "toad_idle_right_v1.png") ∈
      (runMain ["", "home", "game", "scripts", "validate_sprites.py"]
        (fun _ => none)).lines ∧
    (runMain ["", "home", "game", "scripts", "validate_sprites.py"]
      (fun _ => none)).exitCode = 1 ∧
    (runMain ["", "home", "game", "scripts", "validate_sprites.py"]
        (fun _ => none)).lines =
      header ["", "home", "game", "scripts", "validate_sprites.py"] ++
        FILES.map (fileLine (fun _ => none)
          (ROOT ["", "home", "game", "scripts", "validate_sprites.py"])) :=
  missing_file_handling ["", "home", "game", "scripts", "validate_sprites.py"]
    (fun _ => none) "toad_idle_right_v1.png" (by decide) rfl

/-- Witness for C8: the flag is already false after the first file on an
empty filesystem, and the exit code is 1. -/
theorem aggregate_flag_monotonic_witness :
    (runMain ["", "home", "game", "scripts", "validate_sprites.py"]
      (fun _ => none)).exitCode = 1 :=
  aggregate_flag_monotonic ["", "home", "game", "scripts", "validate_sprites.py"]
    (fun _ => none) ["toad_idle_right_v1.png"]
    ["toad_jump_right_v1.png", "toad_land_right_v1.png",
     "toad_cashout_right_v1.png", "toad_jackpot_right_v1.png",
     "toad_dead_right_v1.png"] rfl rfl

/-- Witness for C9 on two extensionally agreeing filesystems. -/
theorem deterministic_output_witness :
    runMain ["", "home", "game", "scripts", "validate_sprites.py"]
        (fun _ => none) =
      runMain ["", "home", "game", "scripts", "validate_sprites.py"]
        (fun p => if p = p then none else some ⟨0, 0, []⟩) :=
  deterministic_output ["", "home", "game", "scripts", "validate_sprites.py"]
    (fun _ => none) (fun p => if p = p then none else some ⟨0, 0, []⟩)
    (fun f _ => by simp)

end LilypadLeap
